import Mathlib

/-!
Verification of the GATT attribute-store and request-dispatch layer of the
`mtb-bluetooth-le-battery-server` repository (files `ble_gatt.cpp`,
`ble_context.cpp`/`.hpp`, `battery_service_task.cpp`).

The embedding is shallow: each C++ function is translated into an executable
Lean function over explicit state.  Machine integers (`uint8_t`, `uint16_t`)
are modelled as `Nat` (with an explicit `% 256` where uint8 overflow matters);
C pointers that may be null are modelled as `Option`; the fixed attribute
table `app_gatt_db_ext_attr_tbl` is modelled as a `List` of entries; calls
into the vendor Bluetooth stack (buffer encoders, the type-index search) are
modelled as explicit function parameters or recorded effects.
-/

namespace BatteryServer

/-- GATT status codes from the vendor enum `wiced_bt_gatt_status_e`.
Only the constructors actually used by the application code are modelled.
In the vendor header `WICED_BT_GATT_SUCCESS = 0x00`; all other listed codes
are nonzero and pairwise distinct. -/
inductive GattStatus where
  | Success          -- WICED_BT_GATT_SUCCESS (0x00)
  | InvalidHandle    -- WICED_BT_GATT_INVALID_HANDLE
  | InvalidPdu       -- WICED_BT_GATT_INVALID_PDU
  | InvalidOffset    -- WICED_BT_GATT_INVALID_OFFSET
  | InvalidAttrLen   -- WICED_BT_GATT_INVALID_ATTR_LEN
  | ErrUnlikely      -- WICED_BT_GATT_ERR_UNLIKELY
  | InsufResource    -- WICED_BT_GATT_INSUF_RESOURCE
  | ReqNotSupported  -- WICED_BT_GATT_REQ_NOT_SUPPORTED
  | GattError        -- WICED_BT_GATT_ERROR
  deriving DecidableEq, Repr

/-- Value produced by C++ value-initialization `wiced_bt_gatt_status_t{}`:
the type is an integer/enum type, so `{}` yields 0, which is
`WICED_BT_GATT_SUCCESS`. -/
def gattStatusZeroInit : GattStatus := GattStatus.Success

/-- One row of the GATT attribute table (`gatt_db_lookup_table_t`):
an attribute handle, the buffer capacity `max_len`, the current value length
`cur_len`, and the backing buffer `p_data` (a null pointer is `none`).
The buffer, when present, is a byte list of length `max_len` (fixed
capacity). -/
structure GattDbEntry where
  handle : Nat
  max_len : Nat
  cur_len : Nat
  p_data : Option (List Nat)
  deriving DecidableEq, Repr

/-- Well-formedness of one attribute entry: the current length never exceeds
the capacity and a non-null buffer has exactly `max_len` bytes. -/
def GattDbEntry.WF (e : GattDbEntry) : Prop :=
  e.cur_len ≤ e.max_len ∧ ∀ buf, e.p_data = some buf → buf.length = e.max_len

instance (e : GattDbEntry) : Decidable e.WF := by
  unfold GattDbEntry.WF
  exact inferInstance

/-- Loop body of `ble_gatt_db_set_value`: scan the table in order, skip
non-matching handles (`continue`), and at the first entry whose handle
matches perform the checked update, then `break`.  Returns the final value
of the C `status` variable (initialized to `WICED_BT_GATT_INVALID_HANDLE`)
together with the table after the call. -/
def setValueLoop (attr_handle : Nat) (value : List Nat) (length : Nat) :
    List GattDbEntry → GattStatus × List GattDbEntry
  | [] => (GattStatus.InvalidHandle, [])
  | entry :: rest =>
    if entry.handle = attr_handle then
      if entry.max_len < length then
        (GattStatus.InvalidAttrLen, entry :: rest)
      else
        match entry.p_data with
        | none => (GattStatus.GattError, entry :: rest)
        | some _ =>
          -- entry.cur_len = length; memcpy(p_data, value, cur_len);
          -- memset(p_data + cur_len, 0, max_len - cur_len)
          (GattStatus.Success,
            { entry with
                cur_len := length,
                p_data := some (value.take length ++
                  List.replicate (entry.max_len - length) 0) } :: rest)
    else
      let r := setValueLoop attr_handle value length rest
      (r.1, entry :: r.2)

/-- Model of `ble_gatt_db_set_value(attr_handle, value, length)`.
The `value` pointer is `Option (List Nat)`; `length > 0` with a null
pointer is rejected up front with `WICED_BT_GATT_INVALID_PDU`.  Returns the
status and the attribute table after the call. -/
def ble_gatt_db_set_value (tbl : List GattDbEntry) (attr_handle : Nat)
    (value : Option (List Nat)) (length : Nat) : GattStatus × List GattDbEntry :=
  if 0 < length ∧ value = none then
    (GattStatus.InvalidPdu, tbl)
  else
    setValueLoop attr_handle (value.getD []) length tbl

/-- Model of `ble_gatt_db_find_by_handle`: linear scan for the first entry
with the given handle (`std::find_if`). -/
def ble_gatt_db_find_by_handle (tbl : List GattDbEntry) (handle : Nat) :
    Option GattDbEntry :=
  tbl.find? (fun e => e.handle == handle)

/-- Payload of a single-attribute read request (`wiced_bt_gatt_read_t`):
the target handle and the value offset. -/
structure ReadReq where
  handle : Nat
  offset : Nat
  deriving DecidableEq, Repr

/-- Result of `ble_gatt_request_read_handler`: the returned status, the
handle written through `error_handle`, and the bytes handed to
`wiced_bt_gatt_server_send_read_handle_rsp` (`none` when no response is
sent).  The transport send itself is modelled as succeeding, so the status
on the send path is `Success`. -/
structure ReadOutcome where
  status : GattStatus
  error_handle : Nat
  sent : Option (List Nat)
  deriving DecidableEq, Repr

/-- Model of `ble_gatt_request_read_handler` (opcodes `GATT_REQ_READ` and
`GATT_REQ_READ_BLOB`).  Unknown handle yields `InvalidHandle`; an offset at
or beyond `cur_len` yields `InvalidOffset`; otherwise
`min(length_requested, cur_len - offset)` bytes starting at `offset` are
sent. -/
def ble_gatt_request_read_handler (tbl : List GattDbEntry)
    (read_request : ReadReq) (length_requested : Nat) : ReadOutcome :=
  match ble_gatt_db_find_by_handle tbl read_request.handle with
  | none =>
    { status := GattStatus.InvalidHandle,
      error_handle := read_request.handle, sent := none }
  | some attr_entry =>
    if read_request.offset ≥ attr_entry.cur_len then
      { status := GattStatus.InvalidOffset,
        error_handle := read_request.handle, sent := none }
    else
      let length_to_send :=
        min length_requested (attr_entry.cur_len - read_request.offset)
      let attribute_data :=
        ((attr_entry.p_data.getD []).drop read_request.offset).take length_to_send
      { status := GattStatus.Success,
        error_handle := read_request.handle, sent := some attribute_data }

/-- Fate of the heap buffer allocated by a multi-attribute read handler:
never allocated (malloc failed), freed before returning, ownership
transferred to the transport with `std::free` as release callback, or
leaked (returned without freeing and without transferring). -/
inductive BufferFate where
  | notAllocated
  | freed
  | transferred
  | leaked
  deriving DecidableEq, Repr

/-- Result of a multi-attribute read handler: returned status, the handle
written through `error_handle`, whether a response was handed to the
transport, the handles whose data the response carries (in response order),
and the fate of the allocated working buffer. -/
structure MultiOutcome where
  status : GattStatus
  error_handle : Nat
  responded : Bool
  response_handles : List Nat
  buffer : BufferFate
  deriving DecidableEq, Repr

/-- Loop of `ble_gatt_request_read_multi_handler` over the caller-provided
handle list.  `put remaining cur_len` models the vendor encoder
`wiced_bt_gatt_put_read_multi_rsp_in_stream`: the number of bytes it wrote
into the remaining `remaining` bytes of the response (0 when the pair does
not fit, which makes the loop break).  On a failed handle lookup the buffer
is freed and `ErrUnlikely` returned; after the loop, `used == 0` returns
`InvalidHandle` without freeing the buffer (the source has no `free` on
that path), otherwise the response is sent with `std::free` as the release
callback. -/
def readMultiLoop (tbl : List GattDbEntry) (put : Nat → Nat → Nat)
    (length_requested : Nat) :
    List Nat → Nat → List Nat → Nat → MultiOutcome
  | [], used, acc, err =>
    if used = 0 then
      { status := GattStatus.InvalidHandle, error_handle := err,
        responded := false, response_handles := [], buffer := BufferFate.leaked }
    else
      { status := GattStatus.Success, error_handle := err,
        responded := true, response_handles := acc.reverse,
        buffer := BufferFate.transferred }
  | h :: rest, used, acc, _ =>
    match ble_gatt_db_find_by_handle tbl h with
    | none =>
      { status := GattStatus.ErrUnlikely, error_handle := h,
        responded := false, response_handles := [], buffer := BufferFate.freed }
    | some attr_entry =>
      let filled := put (length_requested - used) attr_entry.cur_len
      if filled = 0 then
        -- break out of the for loop
        if used = 0 then
          { status := GattStatus.InvalidHandle, error_handle := h,
            responded := false, response_handles := [],
            buffer := BufferFate.leaked }
        else
          { status := GattStatus.Success, error_handle := h,
            responded := true, response_handles := acc.reverse,
            buffer := BufferFate.transferred }
      else
        readMultiLoop tbl put length_requested rest (used + filled) (h :: acc) h

/-- Model of `ble_gatt_request_read_multi_handler` (opcodes
`GATT_REQ_READ_MULTI` and `GATT_REQ_READ_MULTI_VAR_LENGTH`).
`alloc_ok` models whether `std::malloc(length_requested)` succeeded; on
failure the source returns `WICED_BT_GATT_INVALID_HANDLE` (not
`WICED_BT_GATT_INSUF_RESOURCE`). -/
def ble_gatt_request_read_multi_handler (tbl : List GattDbEntry)
    (put : Nat → Nat → Nat) (handles : List Nat) (length_requested : Nat)
    (alloc_ok : Bool) : MultiOutcome :=
  let first_handle := handles.getD 0 0
  if alloc_ok = false then
    { status := GattStatus.InvalidHandle, error_handle := first_handle,
      responded := false, response_handles := [],
      buffer := BufferFate.notAllocated }
  else
    readMultiLoop tbl put length_requested handles 0 [] first_handle

/-- Model of the vendor search `wiced_bt_gatt_find_handle_by_type(s, e, uuid)`:
the smallest handle in the inclusive range `[s, e]` whose declared type
matches the requested UUID (the match predicate is `typeMatch`), or 0 when
no such handle exists. -/
def wiced_bt_gatt_find_handle_by_type (s e : Nat) (typeMatch : Nat → Bool) :
    Nat :=
  match (List.range' s (e + 1 - s)).find? typeMatch with
  | some h => h
  | none => 0

/-- Loop of `ble_gatt_request_read_by_type_handler`: repeatedly search the
range for the next type match starting at `attr_handle`, look the found
handle up in the attribute table, encode its (handle, value) pair into the
response (`put remaining cur_len` models
`wiced_bt_gatt_put_read_by_type_rsp_in_stream`, returning 0 when the pair
does not fit), and continue from the found handle plus one.  The C sets
`*error_handle = attr_handle` at the top of each iteration, before the
search, so every exit reports the iteration-start handle. -/
def readByTypeLoop (tbl : List GattDbEntry) (typeMatch : Nat → Bool)
    (put : Nat → Nat → Nat) (e_handle length_requested : Nat)
    (attr_handle used : Nat) (acc : List Nat) : MultiOutcome :=
  let found := wiced_bt_gatt_find_handle_by_type attr_handle e_handle typeMatch
  if hfound : found = 0 then
    -- while-loop exits; used == 0 means no match was ever encoded
    if used = 0 then
      { status := GattStatus.InvalidHandle, error_handle := attr_handle,
        responded := false, response_handles := [], buffer := BufferFate.freed }
    else
      { status := GattStatus.Success, error_handle := attr_handle,
        responded := true, response_handles := acc,
        buffer := BufferFate.transferred }
  else
    match ble_gatt_db_find_by_handle tbl found with
    | none =>
      { status := GattStatus.InvalidHandle, error_handle := attr_handle,
        responded := false, response_handles := [], buffer := BufferFate.freed }
    | some attr_entry =>
      let filled := put (length_requested - used) attr_entry.cur_len
      if filled = 0 then
        -- break: the pair does not fit in the remaining capacity
        if used = 0 then
          { status := GattStatus.InvalidHandle, error_handle := attr_handle,
            responded := false, response_handles := [],
            buffer := BufferFate.freed }
        else
          { status := GattStatus.Success, error_handle := attr_handle,
            responded := true, response_handles := acc,
            buffer := BufferFate.transferred }
      else
        readByTypeLoop tbl typeMatch put e_handle length_requested
          (found + 1) (used + filled) (acc ++ [found])
termination_by e_handle + 1 - attr_handle
decreasing_by
  unfold_let found at hfound ⊢
  simp only [wiced_bt_gatt_find_handle_by_type] at hfound ⊢
  rcases hfind : (List.range' attr_handle (e_handle + 1 - attr_handle)).find?
      typeMatch with _ | h
  · rw [hfind] at hfound
    simp at hfound
  · rw [hfind] at hfound
    dsimp only
    have hmem := List.mem_of_find?_eq_some hfind
    have hb := List.mem_range'_1.mp hmem
    omega

/-- Model of `ble_gatt_request_read_by_type_handler`
(opcode `GATT_REQ_READ_BY_TYPE`).  `alloc_ok` models whether
`std::malloc(length_requested)` succeeded; on failure the source returns
`WICED_BT_GATT_INSUF_RESOURCE` with the caller's `error_handle` untouched
(it stays at its zero initialization). -/
def ble_gatt_request_read_by_type_handler (tbl : List GattDbEntry)
    (typeMatch : Nat → Bool) (put : Nat → Nat → Nat)
    (s_handle e_handle length_requested : Nat) (alloc_ok : Bool) :
    MultiOutcome :=
  if alloc_ok = false then
    { status := GattStatus.InsufResource, error_handle := 0,
      responded := false, response_handles := [],
      buffer := BufferFate.notAllocated }
  else
    readByTypeLoop tbl typeMatch put e_handle length_requested s_handle 0 []

/-- Validity tag constant `OTA_APP_TAG_VALID` (= `BLE_CONTEXT_TAG_VALID`)
from `ble_context.hpp`. -/
def OTA_APP_TAG_VALID : Nat := 0x51EDBA15

/-- Invalid-context tag constant `BLE_CONTEXT_TAG_INVALID` from
`ble_context.hpp`. -/
def BLE_CONTEXT_TAG_INVALID : Nat := 0xDEADBEEF

/-- Attribute handle of the OTA control-point client characteristic
configuration descriptor.  The numeric values of the three OTA handles come
from the generated `cycfg_gatt_db.h`, which is not part of the source
snapshot; only their distinctness matters to the modelled code, so
arbitrary distinct values are used. -/
def HDLD_OTA_FW_UPGRADE_SERVICE_OTA_UPGRADE_CONTROL_POINT_CLIENT_CHAR_CONFIG :
    Nat := 0x23

/-- Attribute handle of the OTA control-point characteristic value (see the
comment on the descriptor handle above). -/
def HDLC_OTA_FW_UPGRADE_SERVICE_OTA_UPGRADE_CONTROL_POINT_VALUE : Nat := 0x22

/-- Attribute handle of the OTA data characteristic value (see the comment
on the descriptor handle above). -/
def HDLC_OTA_FW_UPGRADE_SERVICE_OTA_UPGRADE_DATA_VALUE : Nat := 0x25

/-- OTA control-point command byte: prepare download (0x01, per
`cy_ota_api.h`). -/
def CY_OTA_UPGRADE_COMMAND_PREPARE_DOWNLOAD : Nat := 1

/-- OTA control-point command byte: download. -/
def CY_OTA_UPGRADE_COMMAND_DOWNLOAD : Nat := 2

/-- OTA control-point command byte: verify. -/
def CY_OTA_UPGRADE_COMMAND_VERIFY : Nat := 3

/-- OTA control-point command byte: abort. -/
def CY_OTA_UPGRADE_COMMAND_ABORT : Nat := 4

/-- Result type `cy_rslt_t` of the external OTA engine, collapsed to the
three outcomes the application distinguishes. -/
inductive CyRslt where
  | success         -- CY_RSLT_SUCCESS
  | otaErrorBadarg  -- CY_RSLT_OTA_ERROR_BADARG
  | typeError       -- CY_RSLT_TYPE_ERROR
  deriving DecidableEq, Repr

/-- Record of which external OTA engine entry points were invoked during one
handler call, plus whether the handler entered the infinite delay loop
(`while (true) cy_rtos_delay_milliseconds(10);`) that follows a failed
`cy_ota_agent_start`. -/
structure OtaEffects where
  agent_start_called : Bool := false
  download_prepare_called : Bool := false
  download_called : Bool := false
  download_verify_called : Bool := false
  download_abort_called : Bool := false
  download_write_called : Bool := false
  hang : Bool := false
  deriving DecidableEq, Repr

/-- Slice of the `ble_context` state that the OTA write path reads and
writes: the validity tag `m_tag` and the captured configuration descriptor
`m_ota_config_descriptor`. -/
structure OtaState where
  m_tag : Nat
  m_ota_config_descriptor : Nat
  deriving DecidableEq, Repr

/-- Outcomes of the external OTA engine calls, supplied by the environment
(the engine is an external collaborator). -/
structure OtaEnv where
  start_ok : Bool
  download_prepare_ok : Bool
  download_ok : Bool
  download_verify_ok : Bool
  download_write_ok : Bool
  deriving DecidableEq, Repr

/-- Model of `ble_context::ota_agent_initialize`.  An invalid tag returns
`CY_RSLT_OTA_ERROR_BADARG` before anything else; otherwise
`ota_value_initialize()` resets the session fields (in particular it zeroes
`m_ota_config_descriptor`) and `cy_ota_agent_start` is invoked.  When the
start fails the C code never returns (infinite delay loop): that branch is
marked by `hang := true` and its result component is immaterial. -/
def ota_agent_initialize (st : OtaState) (env : OtaEnv) :
    CyRslt × OtaState × OtaEffects :=
  if st.m_tag ≠ OTA_APP_TAG_VALID then
    (CyRslt.otaErrorBadarg, st, {})
  else
    let st1 : OtaState := { st with m_ota_config_descriptor := 0 }
    if env.start_ok then
      (CyRslt.success, st1, { agent_start_called := true })
    else
      (CyRslt.typeError, st1, { agent_start_called := true, hang := true })

/-- Payload of a write request (`wiced_bt_gatt_write_req_t`): target handle,
value pointer (nullable) and value length. -/
structure GattWriteReq where
  handle : Nat
  p_val : Option (List Nat)
  val_len : Nat
  deriving DecidableEq, Repr

/-- Model of `ble_context::ota_agent_write_handler`: dispatch on the written
handle (OTA CCCD, control point, data) and, for the control point, on the
first value byte (prepare / download / verify / abort).  Returns the GATT
status, the updated context slice, and the record of engine calls made. -/
def ota_agent_write_handler (st : OtaState) (env : OtaEnv)
    (write_request : GattWriteReq) : GattStatus × OtaState × OtaEffects :=
  if write_request.handle =
      HDLD_OTA_FW_UPGRADE_SERVICE_OTA_UPGRADE_CONTROL_POINT_CLIENT_CHAR_CONFIG
  then
    -- Save configuration descriptor (Notify & Indicate flags)
    (GattStatus.Success,
     { st with
         m_ota_config_descriptor := (write_request.p_val.getD []).getD 0 0 },
     {})
  else if write_request.handle =
      HDLC_OTA_FW_UPGRADE_SERVICE_OTA_UPGRADE_CONTROL_POINT_VALUE then
    let cmd := (write_request.p_val.getD []).getD 0 0
    if cmd = CY_OTA_UPGRADE_COMMAND_PREPARE_DOWNLOAD then
      match ota_agent_initialize st env with
      | (r, st1, eff) =>
        if r ≠ CyRslt.success then (GattStatus.GattError, st1, eff)
        else if env.download_prepare_ok then
          (GattStatus.Success, st1, { eff with download_prepare_called := true })
        else
          (GattStatus.GattError, st1,
           { eff with download_prepare_called := true })
    else if cmd = CY_OTA_UPGRADE_COMMAND_DOWNLOAD then
      if env.download_ok then
        (GattStatus.Success, st, { download_called := true })
      else (GattStatus.GattError, st, { download_called := true })
    else if cmd = CY_OTA_UPGRADE_COMMAND_VERIFY then
      if env.download_verify_ok then
        (GattStatus.Success, st, { download_verify_called := true })
      else (GattStatus.GattError, st, { download_verify_called := true })
    else if cmd = CY_OTA_UPGRADE_COMMAND_ABORT then
      -- abort result is ignored; always report success
      (GattStatus.Success, st, { download_abort_called := true })
    else
      -- inner switch falls through; outer switch breaks to the final return
      (GattStatus.ReqNotSupported, st, {})
  else if write_request.handle =
      HDLC_OTA_FW_UPGRADE_SERVICE_OTA_UPGRADE_DATA_VALUE then
    if env.download_write_ok then
      (GattStatus.Success, st, { download_write_called := true })
    else (GattStatus.GattError, st, { download_write_called := true })
  else
    (GattStatus.ReqNotSupported, st, {})

/-- Result of the write-command handler: status, the handle reported through
`error_handle`, the attribute table after the call, and the OTA state and
effects. -/
structure WriteOutcome where
  status : GattStatus
  error_handle : Nat
  tbl : List GattDbEntry
  ota_state : OtaState
  ota_effects : OtaEffects
  deriving DecidableEq, Repr

/-- Model of `ble_gatt_command_write_handler`: the three OTA handles route to
the OTA write handler, every other handle is a plain attribute-store
write via `ble_gatt_db_set_value`. -/
def ble_gatt_command_write_handler (tbl : List GattDbEntry) (st : OtaState)
    (env : OtaEnv) (write_request : GattWriteReq) : WriteOutcome :=
  if write_request.handle =
      HDLD_OTA_FW_UPGRADE_SERVICE_OTA_UPGRADE_CONTROL_POINT_CLIENT_CHAR_CONFIG
    ∨ write_request.handle =
        HDLC_OTA_FW_UPGRADE_SERVICE_OTA_UPGRADE_CONTROL_POINT_VALUE
    ∨ write_request.handle =
        HDLC_OTA_FW_UPGRADE_SERVICE_OTA_UPGRADE_DATA_VALUE then
    match ota_agent_write_handler st env write_request with
    | (s, st1, eff) =>
      { status := s, error_handle := write_request.handle, tbl := tbl,
        ota_state := st1, ota_effects := eff }
  else
    match ble_gatt_db_set_value tbl write_request.handle write_request.p_val
        write_request.val_len with
    | (s, tbl1) =>
      { status := s, error_handle := write_request.handle, tbl := tbl1,
        ota_state := st, ota_effects := {} }

/-- GATT opcodes (`wiced_bt_gatt_opcode_e`) as dispatched by
`ble_gatt_event_handler`.  The last two constructors are examples of valid
protocol opcodes that have no case in the dispatcher's switch and therefore
fall through to `default:`. -/
inductive GattOpcode where
  | ReqRead
  | ReqReadBlob
  | ReqReadByType
  | ReqReadMulti
  | ReqReadMultiVarLength
  | ReqWrite
  | CmdWrite
  | CmdSignedWrite
  | ReqPrepareWrite
  | ReqExecuteWrite
  | ReqMtu
  | HandleValueConf
  | HandleValueNotif
  | ReqFindTypeValue  -- GATT_REQ_FIND_TYPE_VALUE: no case in the switch
  | ReqReadByGrpType  -- GATT_REQ_READ_BY_GRP_TYPE: no case in the switch
  deriving DecidableEq, Repr

/-- One attribute-protocol request as delivered to the dispatcher: the
opcode plus the per-opcode payloads of `wiced_bt_gatt_attribute_request_t`
(only the payload selected by the opcode is meaningful). -/
structure AttributeRequest where
  opcode : GattOpcode
  read_req : ReadReq
  read_by_type_s : Nat
  read_by_type_e : Nat
  read_multi_handles : List Nat
  write_req : GattWriteReq
  len_requested : Nat
  deriving DecidableEq, Repr

/-- Environment of one dispatch: the vendor type-match predicate and stream
encoders, whether `std::malloc` succeeds, the status returned by
`wiced_bt_gatt_server_send_mtu_rsp`, and the OTA engine outcomes. -/
structure GattEnv where
  typeMatch : Nat → Bool
  putByType : Nat → Nat → Nat
  putMulti : Nat → Nat → Nat
  alloc_ok : Bool
  mtu_rsp_status : GattStatus
  ota : OtaEnv

/-- Result of `ble_gatt_event_handler`: the returned status, the value left
in the caller's `error_handle` variable (zero-initialized by
`ble_gatt_event_callback` and only written by the read and write paths),
the attribute table and OTA state after the call, the engine-call record,
and which acknowledgement responses were sent. -/
structure DispatchOutcome where
  status : GattStatus
  error_handle : Nat
  tbl : List GattDbEntry
  ota_state : OtaState
  ota_effects : OtaEffects
  write_rsp_sent : Bool
  execute_write_rsp_sent : Bool
  deriving DecidableEq, Repr

/-- Model of `ble_gatt_event_handler`: route the request by opcode.  The C
initializes `auto status = wiced_bt_gatt_status_t{};` — value
initialization, i.e. 0 = `WICED_BT_GATT_SUCCESS` — and the `default:` case
of the switch leaves that value in place.  `GATT_HANDLE_VALUE_CONF` invokes
the OTA confirmation handler (its reboot/stop side effects are outside the
attribute path) and returns success. -/
def ble_gatt_event_handler (tbl : List GattDbEntry) (st : OtaState)
    (env : GattEnv) (req : AttributeRequest) : DispatchOutcome :=
  match req.opcode with
  | GattOpcode.ReqRead | GattOpcode.ReqReadBlob =>
    let r := ble_gatt_request_read_handler tbl req.read_req req.len_requested
    { status := r.status, error_handle := r.error_handle, tbl := tbl,
      ota_state := st, ota_effects := {}, write_rsp_sent := false,
      execute_write_rsp_sent := false }
  | GattOpcode.ReqReadByType =>
    let r := ble_gatt_request_read_by_type_handler tbl env.typeMatch
      env.putByType req.read_by_type_s req.read_by_type_e req.len_requested
      env.alloc_ok
    { status := r.status, error_handle := r.error_handle, tbl := tbl,
      ota_state := st, ota_effects := {}, write_rsp_sent := false,
      execute_write_rsp_sent := false }
  | GattOpcode.ReqReadMulti | GattOpcode.ReqReadMultiVarLength =>
    let r := ble_gatt_request_read_multi_handler tbl env.putMulti
      req.read_multi_handles req.len_requested env.alloc_ok
    { status := r.status, error_handle := r.error_handle, tbl := tbl,
      ota_state := st, ota_effects := {}, write_rsp_sent := false,
      execute_write_rsp_sent := false }
  | GattOpcode.ReqWrite | GattOpcode.CmdWrite | GattOpcode.CmdSignedWrite =>
    let w := ble_gatt_command_write_handler tbl st env.ota req.write_req
    { status := w.status, error_handle := w.error_handle, tbl := w.tbl,
      ota_state := w.ota_state, ota_effects := w.ota_effects,
      write_rsp_sent := decide (req.opcode = GattOpcode.ReqWrite ∧
        w.status = GattStatus.Success),
      execute_write_rsp_sent := false }
  | GattOpcode.ReqPrepareWrite =>
    { status := GattStatus.Success, error_handle := 0, tbl := tbl,
      ota_state := st, ota_effects := {}, write_rsp_sent := false,
      execute_write_rsp_sent := false }
  | GattOpcode.ReqExecuteWrite =>
    { status := GattStatus.Success, error_handle := 0, tbl := tbl,
      ota_state := st, ota_effects := {}, write_rsp_sent := false,
      execute_write_rsp_sent := true }
  | GattOpcode.ReqMtu =>
    { status := env.mtu_rsp_status, error_handle := 0, tbl := tbl,
      ota_state := st, ota_effects := {}, write_rsp_sent := false,
      execute_write_rsp_sent := false }
  | GattOpcode.HandleValueConf =>
    { status := GattStatus.Success, error_handle := 0, tbl := tbl,
      ota_state := st, ota_effects := {}, write_rsp_sent := false,
      execute_write_rsp_sent := false }
  | GattOpcode.HandleValueNotif =>
    { status := GattStatus.Success, error_handle := 0, tbl := tbl,
      ota_state := st, ota_effects := {}, write_rsp_sent := false,
      execute_write_rsp_sent := false }
  | GattOpcode.ReqFindTypeValue | GattOpcode.ReqReadByGrpType =>
    -- default: the zero-initialized status (WICED_BT_GATT_SUCCESS) is kept
    { status := gattStatusZeroInit, error_handle := 0, tbl := tbl,
      ota_state := st, ota_effects := {}, write_rsp_sent := false,
      execute_write_rsp_sent := false }

/-- Model of the `GATT_ATTRIBUTE_REQUEST_EVT` arm of
`ble_gatt_event_callback`: run the dispatcher and, exactly when its status
differs from `WICED_BT_GATT_SUCCESS`, send a protocol error response via
`wiced_bt_gatt_server_send_error_rsp` (recorded in the Boolean). -/
def ble_gatt_event_callback_attribute_request (tbl : List GattDbEntry)
    (st : OtaState) (env : GattEnv) (req : AttributeRequest) :
    DispatchOutcome × Bool :=
  let out := ble_gatt_event_handler tbl st env req
  (out, decide (out.status ≠ GattStatus.Success))

/-- Connection/advertising states of `ble_context::state`. -/
inductive ConnState where
  | disconnected_not_advertising
  | disconnected_and_advertising
  | connected
  deriving DecidableEq, Repr

/-- Length of a Bluetooth device address (`BD_ADDR_LEN`). -/
def BD_ADDR_LEN : Nat := 6

/-- Slice of `ble_context` touched by the connection event handler. -/
structure BleConnCtx where
  m_connection_id : Nat
  m_peer_address : List Nat
  m_connection_state : ConnState
  deriving DecidableEq, Repr

/-- Payload of `wiced_bt_gatt_connection_status_t`. -/
structure ConnectionStatus where
  connected : Bool
  conn_id : Nat
  bd_addr : List Nat
  deriving DecidableEq, Repr

/-- Observable effects of one `connection_event_handler` call: the returned
status, how many `wiced_bt_start_advertisements` requests were issued,
whether `CY_ASSERT(false)` fired (halting the handler), and whether
`update_advertising_led` ran. -/
structure ConnEventEffects where
  status : GattStatus
  adv_start_requests : Nat
  fatal_assert : Bool
  led_updated : Bool
  deriving DecidableEq, Repr

/-- Model of `ble_context::connection_event_handler`.  `adv_start_ok` is the
transport's answer to the advertising-start request issued on the
disconnect path; when the transport rejects it, `CY_ASSERT(false)` halts
the handler before the state assignment and the LED update, so the
recorded post-halt context still carries the old connection state (the
status component then reports the initial value of the C `status`
variable, `WICED_BT_GATT_ERROR`). -/
def connection_event_handler (ctx : BleConnCtx)
    (connection_status : Option ConnectionStatus) (adv_start_ok : Bool) :
    BleConnCtx × ConnEventEffects :=
  match connection_status with
  | none =>
    (ctx, { status := GattStatus.GattError, adv_start_requests := 0,
            fatal_assert := false, led_updated := false })
  | some cs =>
    if cs.connected then
      ({ m_connection_id := cs.conn_id,
         m_peer_address := cs.bd_addr.take BD_ADDR_LEN,
         m_connection_state := ConnState.connected },
       { status := GattStatus.Success, adv_start_requests := 0,
         fatal_assert := false, led_updated := true })
    else
      if adv_start_ok then
        ({ ctx with
             m_connection_id := 0,
             m_connection_state := ConnState.disconnected_and_advertising },
         { status := GattStatus.Success, adv_start_requests := 1,
           fatal_assert := false, led_updated := true })
      else
        ({ ctx with m_connection_id := 0 },
         { status := GattStatus.GattError, adv_start_requests := 1,
           fatal_assert := true, led_updated := false })

/-- Fixed battery-level decrement `BATTERY_LEVEL_CHANGE` from
`battery_service_task.cpp`. -/
def BATTERY_LEVEL_CHANGE : Nat := 2

/-- Model of `battery_service_update_percentage`: the battery level byte
`app_bas_battery_level[0]` becomes 100 when it is 0, and otherwise has
`decrease_interval` subtracted with uint8 wrap-around.  Both parameters are
`uint8_t` values (< 256); `level + 256 - decrease_interval` is the
two's-complement form of the C subtraction before the modulo-256 store. -/
def battery_service_update_percentage (level decrease_interval : Nat) : Nat :=
  if level = 0 then 100
  else (level + 256 - decrease_interval) % 256

/-- Executable description of the read-multiple loop reaching the end of a
prefix of the handle list: every handle of the prefix is found in the table
and its encoded pair fits in the remaining capacity (the vendor encoder
returns nonzero), with `used` accumulating the bytes written so far. -/
def readMultiPrefixFits (tbl : List GattDbEntry) (put : Nat → Nat → Nat)
    (length_requested : Nat) : List Nat → Nat → Bool
  | [], _ => true
  | h :: rest, used =>
    match ble_gatt_db_find_by_handle tbl h with
    | none => false
    | some attr_entry =>
      let filled := put (length_requested - used) attr_entry.cur_len
      if filled = 0 then false
      else readMultiPrefixFits tbl put length_requested rest (used + filled)

/-- Auxiliary fact: reading past a prefix of an append through `getD` lands
in the suffix; when every position of the suffix reads zero, so does the
whole append at such positions. -/
theorem getD_append_right_zero (l1 l2 : List Nat) (i : Nat)
    (h : l1.length ≤ i) (hz : ∀ k, l2.getD k 0 = 0) :
    (l1 ++ l2).getD i 0 = 0 := by
  induction l1 generalizing i with
  | nil => simpa using hz i
  | cons a l1 ih =>
    cases i with
    | zero => simp at h
    | succ i =>
      simp only [List.cons_append, List.getD_cons_succ]
      exact ih i (by simpa using h)

/-- Auxiliary fact: any position of an all-zero replicate list reads zero
through `getD` (in range or out of range). -/
theorem getD_replicate_zero (n k : Nat) :
    (List.replicate n (0 : Nat)).getD k 0 = 0 := by
  induction n generalizing k with
  | zero => simp [List.getD]
  | succ n ih =>
    cases k with
    | zero => simp [List.replicate_succ]
    | succ k => simpa [List.replicate_succ] using ih k

/-- Auxiliary fact about `setValueLoop`: whenever the status it returns is
not `Success`, it hands the table back unchanged. -/
theorem setValueLoop_ne_success (attr_handle : Nat) (value : List Nat)
    (length : Nat) (tbl : List GattDbEntry)
    (hne : (setValueLoop attr_handle value length tbl).1 ≠ GattStatus.Success) :
    (setValueLoop attr_handle value length tbl).2 = tbl := by
  induction tbl with
  | nil => rfl
  | cons entry rest ih =>
    simp only [setValueLoop] at hne ⊢
    by_cases hh : entry.handle = attr_handle
    · rw [if_pos hh] at hne ⊢
      by_cases hlen : entry.max_len < length
      · rw [if_pos hlen] at hne ⊢
      · rw [if_neg hlen] at hne ⊢
        cases hpd : entry.p_data with
        | none => rfl
        | some buf0 =>
          rw [hpd] at hne
          simp at hne
    · rw [if_neg hh] at hne ⊢
      dsimp only at hne ⊢
      rw [ih hne]

/-- Auxiliary fact about `setValueLoop`: on success, the first entry of the
resulting table whose handle matches is the updated entry, with
`cur_len = length` and the copied-then-zero-padded buffer. -/
theorem setValueLoop_success_find (attr_handle : Nat) (value : List Nat)
    (length : Nat) (tbl : List GattDbEntry)
    (hs : (setValueLoop attr_handle value length tbl).1 = GattStatus.Success) :
    ∃ e : GattDbEntry,
      ((setValueLoop attr_handle value length tbl).2).find?
          (fun x => x.handle == attr_handle) = some e ∧
      e.cur_len = length ∧
      e.p_data = some (value.take length ++
        List.replicate (e.max_len - length) 0) := by
  induction tbl with
  | nil => simp [setValueLoop] at hs
  | cons entry rest ih =>
    simp only [setValueLoop] at hs ⊢
    by_cases hh : entry.handle = attr_handle
    · rw [if_pos hh] at hs ⊢
      by_cases hlen : entry.max_len < length
      · rw [if_pos hlen] at hs; simp at hs
      · rw [if_neg hlen] at hs ⊢
        cases hpd : entry.p_data with
        | none => rw [hpd] at hs; simp at hs
        | some buf0 =>
          dsimp only
          refine ⟨{ entry with
              cur_len := length,
              p_data := some (value.take length ++
                List.replicate (entry.max_len - length) 0) }, ?_, rfl, rfl⟩
          exact List.find?_cons_of_pos _ (by simpa using hh)
    · rw [if_neg hh] at hs ⊢
      dsimp only at hs ⊢
      obtain ⟨e, hfind, hcl, hpd⟩ := ih hs
      refine ⟨e, ?_, hcl, hpd⟩
      rw [List.find?_cons_of_neg _ (by simpa using hh)]
      exact hfind

/-- C1: a successful `ble_gatt_db_set_value(handle, bytes, length)` leaves
the matched entry with `cur_len = length`, its first `length` buffer bytes
equal to the input bytes, and every buffer byte in positions
`[length, max_len)` zero. -/
theorem set_value_success_postcondition (tbl : List GattDbEntry)
    (attr_handle : Nat) (value : List Nat) (length : Nat)
    (hvlen : length ≤ value.length)
    (hs : (ble_gatt_db_set_value tbl attr_handle (some value) length).1 =
      GattStatus.Success) :
    ∃ e buf,
      ble_gatt_db_find_by_handle
          (ble_gatt_db_set_value tbl attr_handle (some value) length).2
          attr_handle = some e ∧
      e.cur_len = length ∧
      e.p_data = some buf ∧
      buf.take length = value.take length ∧
      ∀ i, length ≤ i → i < e.max_len → buf.getD i 0 = 0 := by
  have hguard : ¬(0 < length ∧ (some value : Option (List Nat)) = none) := by
    simp
  simp only [ble_gatt_db_set_value, if_neg hguard, Option.getD_some] at hs ⊢
  obtain ⟨e, hfind, hcl, hpd⟩ :=
    setValueLoop_success_find attr_handle value length tbl hs
  have htlen : (value.take length).length = length := by
    simp [List.length_take, Nat.min_eq_left hvlen]
  refine ⟨e, _, hfind, hcl, hpd, ?_, ?_⟩
  · rw [List.take_left' htlen]
  · intro i hi _
    exact getD_append_right_zero _ _ i (by rw [htlen]; exact hi)
      (fun k => getD_replicate_zero _ k)

/-- Witness for C1 at a concrete input: writing 2 bytes into a 4-byte
attribute succeeds and the postcondition holds. -/
theorem set_value_success_postcondition_witness :
    2 ≤ [7, 8].length ∧
    (ble_gatt_db_set_value [⟨5, 4, 4, some [1, 2, 3, 4]⟩] 5 (some [7, 8]) 2).1 =
      GattStatus.Success ∧
    ∃ e buf,
      ble_gatt_db_find_by_handle
          (ble_gatt_db_set_value [⟨5, 4, 4, some [1, 2, 3, 4]⟩] 5
            (some [7, 8]) 2).2 5 = some e ∧
      e.cur_len = 2 ∧
      e.p_data = some buf ∧
      buf.take 2 = [7, 8].take 2 ∧
      ∀ i, 2 ≤ i → i < e.max_len → buf.getD i 0 = 0 :=
  ⟨by decide, by decide,
    set_value_success_postcondition [⟨5, 4, 4, some [1, 2, 3, 4]⟩] 5 [7, 8] 2
      (by decide) (by decide)⟩

/-- C10: whenever `ble_gatt_db_set_value` returns a non-success status, the
attribute table is exactly as it was before the call. -/
theorem set_value_error_atomicity (tbl : List GattDbEntry) (attr_handle : Nat)
    (value : Option (List Nat)) (length : Nat)
    (hne : (ble_gatt_db_set_value tbl attr_handle value length).1 ≠
      GattStatus.Success) :
    (ble_gatt_db_set_value tbl attr_handle value length).2 = tbl := by
  by_cases hguard : 0 < length ∧ value = none
  · simp [ble_gatt_db_set_value, hguard]
  · simp only [ble_gatt_db_set_value, if_neg hguard] at hne ⊢
    exact setValueLoop_ne_success _ _ _ _ hne

/-- Witness for C10 at a concrete input: a write to an unknown handle fails
and the table is unchanged. -/
theorem set_value_error_atomicity_witness :
    (ble_gatt_db_set_value [⟨5, 4, 1, some [1, 0, 0, 0]⟩] 9
        (some [7]) 1).1 ≠ GattStatus.Success ∧
    (ble_gatt_db_set_value [⟨5, 4, 1, some [1, 0, 0, 0]⟩] 9
        (some [7]) 1).2 = [⟨5, 4, 1, some [1, 0, 0, 0]⟩] :=
  ⟨by decide,
    set_value_error_atomicity [⟨5, 4, 1, some [1, 0, 0, 0]⟩] 9 (some [7]) 1
      (by decide)⟩

/-- C2: for a single-attribute read (Read or Read-Blob) of an existing
handle, an offset at or beyond `cur_len` yields `InvalidOffset` and no
response (this covers `cur_len = 0`, where every offset fails); otherwise
exactly `min(length_requested, cur_len - offset)` bytes, taken from the
attribute data starting at `offset`, are sent. -/
theorem read_handler_offset_and_truncation (tbl : List GattDbEntry)
    (req : ReadReq) (length_requested : Nat) (e : GattDbEntry)
    (buf : List Nat)
    (hfind : ble_gatt_db_find_by_handle tbl req.handle = some e)
    (hbuf : e.p_data = some buf) (hblen : buf.length = e.max_len)
    (hcl : e.cur_len ≤ e.max_len) :
    (e.cur_len ≤ req.offset →
      (ble_gatt_request_read_handler tbl req length_requested).status =
        GattStatus.InvalidOffset ∧
      (ble_gatt_request_read_handler tbl req length_requested).sent = none) ∧
    (req.offset < e.cur_len →
      ∃ bytes,
        (ble_gatt_request_read_handler tbl req length_requested).sent =
          some bytes ∧
        bytes.length = min length_requested (e.cur_len - req.offset) ∧
        bytes = (buf.drop req.offset).take
          (min length_requested (e.cur_len - req.offset))) := by
  constructor
  · intro hoff
    simp [ble_gatt_request_read_handler, hfind, hoff]
  · intro hoff
    simp only [ble_gatt_request_read_handler, hfind, ge_iff_le,
      if_neg (by omega : ¬ e.cur_len ≤ req.offset), hbuf, Option.getD_some]
    refine ⟨_, rfl, ?_, rfl⟩
    simp only [List.length_take, List.length_drop]
    omega

/-- Witness for C2 at a concrete input: a read of handle 5 at offset 1 on a
3-byte value sends `min(10, 2) = 2` bytes. -/
theorem read_handler_offset_and_truncation_witness :
    ble_gatt_db_find_by_handle [⟨5, 4, 3, some [1, 2, 3, 0]⟩] 5 =
      some ⟨5, 4, 3, some [1, 2, 3, 0]⟩ ∧
    (⟨5, 4, 3, some [1, 2, 3, 0]⟩ : GattDbEntry).p_data = some [1, 2, 3, 0] ∧
    [1, 2, 3, 0].length = (⟨5, 4, 3, some [1, 2, 3, 0]⟩ : GattDbEntry).max_len ∧
    (⟨5, 4, 3, some [1, 2, 3, 0]⟩ : GattDbEntry).cur_len ≤
      (⟨5, 4, 3, some [1, 2, 3, 0]⟩ : GattDbEntry).max_len ∧
    (((⟨5, 4, 3, some [1, 2, 3, 0]⟩ : GattDbEntry).cur_len ≤
        (⟨5, 1⟩ : ReadReq).offset →
      (ble_gatt_request_read_handler [⟨5, 4, 3, some [1, 2, 3, 0]⟩]
          ⟨5, 1⟩ 10).status = GattStatus.InvalidOffset ∧
      (ble_gatt_request_read_handler [⟨5, 4, 3, some [1, 2, 3, 0]⟩]
          ⟨5, 1⟩ 10).sent = none) ∧
    ((⟨5, 1⟩ : ReadReq).offset <
        (⟨5, 4, 3, some [1, 2, 3, 0]⟩ : GattDbEntry).cur_len →
      ∃ bytes,
        (ble_gatt_request_read_handler [⟨5, 4, 3, some [1, 2, 3, 0]⟩]
            ⟨5, 1⟩ 10).sent = some bytes ∧
        bytes.length = min 10
          ((⟨5, 4, 3, some [1, 2, 3, 0]⟩ : GattDbEntry).cur_len -
            (⟨5, 1⟩ : ReadReq).offset) ∧
        bytes = ([1, 2, 3, 0].drop (⟨5, 1⟩ : ReadReq).offset).take
          (min 10 ((⟨5, 4, 3, some [1, 2, 3, 0]⟩ : GattDbEntry).cur_len -
            (⟨5, 1⟩ : ReadReq).offset)))) :=
  ⟨by decide, by decide, by decide, by decide,
    read_handler_offset_and_truncation [⟨5, 4, 3, some [1, 2, 3, 0]⟩]
      ⟨5, 1⟩ 10 ⟨5, 4, 3, some [1, 2, 3, 0]⟩ [1, 2, 3, 0]
      (by decide) (by decide) (by decide) (by decide)⟩

/-- Auxiliary fact about `readMultiLoop`: if the loop reaches a handle that
is missing from the table (every earlier handle was found and its pair fit),
it frees the buffer and returns `ErrUnlikely` without responding. -/
theorem readMultiLoop_missing_after_fit (tbl : List GattDbEntry)
    (put : Nat → Nat → Nat) (length_requested hm : Nat) (post : List Nat)
    (hmiss : ble_gatt_db_find_by_handle tbl hm = none) :
    ∀ (pre : List Nat) (used : Nat) (acc : List Nat) (err : Nat),
      readMultiPrefixFits tbl put length_requested pre used = true →
      readMultiLoop tbl put length_requested (pre ++ hm :: post) used acc err =
        { status := GattStatus.ErrUnlikely, error_handle := hm,
          responded := false, response_handles := [],
          buffer := BufferFate.freed } := by
  intro pre
  induction pre with
  | nil =>
    intro used acc err _
    simp [readMultiLoop, hmiss]
  | cons h pre ih =>
    intro used acc err hfits
    simp only [readMultiPrefixFits] at hfits
    cases hf : ble_gatt_db_find_by_handle tbl h with
    | none => rw [hf] at hfits; simp at hfits
    | some a =>
      rw [hf] at hfits
      dsimp only at hfits
      by_cases hfill : put (length_requested - used) a.cur_len = 0
      · rw [if_pos hfill] at hfits; simp at hfits
      · rw [if_neg hfill] at hfits
        simp only [List.cons_append, readMultiLoop, hf]
        rw [if_neg hfill]
        exact ih _ _ _ hfits

/-- C3 counterexample: on the table with handles 1 and 2 (3 bytes each) and
request capacity 4, the request for `[1, 2, 99]` (where 99 is not in the
table) encodes handle 1, breaks on handle 2 (its pair no longer fits) and
sends a partial response carrying handle 1, returning `Success` — so a
missing handle in the list does not always abort the operation. -/
theorem read_multi_partial_send_counterexample :
    ble_gatt_db_find_by_handle
        [⟨1, 3, 3, some [9, 9, 9]⟩, ⟨2, 3, 3, some [8, 8, 8]⟩] 99 = none ∧
    ble_gatt_request_read_multi_handler
        [⟨1, 3, 3, some [9, 9, 9]⟩, ⟨2, 3, 3, some [8, 8, 8]⟩]
        (fun remaining cur_len => if cur_len ≤ remaining then cur_len else 0)
        [1, 2, 99] 4 true =
      { status := GattStatus.Success, error_handle := 2, responded := true,
        response_handles := [1], buffer := BufferFate.transferred } := by
  decide

/-- C3 as amended: if the handle list splits as `pre ++ missing :: post`
where every handle of `pre` is found and its encoded pair fits (so the loop
actually reaches the missing handle before breaking on capacity), then the
handler returns the overall error `ErrUnlikely`, sends no response (the
partial data accumulated for `pre` is discarded), and frees the buffer. -/
theorem read_multi_missing_handle_all_or_nothing (tbl : List GattDbEntry)
    (put : Nat → Nat → Nat) (handles pre post : List Nat)
    (hm length_requested : Nat)
    (hsplit : handles = pre ++ hm :: post)
    (hmiss : ble_gatt_db_find_by_handle tbl hm = none)
    (hfits : readMultiPrefixFits tbl put length_requested pre 0 = true) :
    (ble_gatt_request_read_multi_handler tbl put handles length_requested
        true).status = GattStatus.ErrUnlikely ∧
    (ble_gatt_request_read_multi_handler tbl put handles length_requested
        true).responded = false ∧
    (ble_gatt_request_read_multi_handler tbl put handles length_requested
        true).buffer = BufferFate.freed := by
  subst hsplit
  simp only [ble_gatt_request_read_multi_handler]
  rw [if_neg (by simp)]
  rw [readMultiLoop_missing_after_fit tbl put length_requested hm post hmiss
    pre 0 [] ((pre ++ hm :: post).getD 0 0) hfits]
  exact ⟨rfl, rfl, rfl⟩

/-- Witness for the amended C3 at a concrete input: request `[1, 99]` with
enough capacity for handle 1; the missing handle 99 is reached and the
whole operation aborts with `ErrUnlikely`, nothing sent, buffer freed. -/
theorem read_multi_missing_handle_all_or_nothing_witness :
    ([1, 99] : List Nat) = [1] ++ 99 :: [] ∧
    ble_gatt_db_find_by_handle [⟨1, 3, 3, some [9, 9, 9]⟩] 99 = none ∧
    readMultiPrefixFits [⟨1, 3, 3, some [9, 9, 9]⟩]
      (fun remaining cur_len => if cur_len ≤ remaining then cur_len else 0)
      4 [1] 0 = true ∧
    ((ble_gatt_request_read_multi_handler [⟨1, 3, 3, some [9, 9, 9]⟩]
        (fun remaining cur_len => if cur_len ≤ remaining then cur_len else 0)
        [1, 99] 4 true).status = GattStatus.ErrUnlikely ∧
    (ble_gatt_request_read_multi_handler [⟨1, 3, 3, some [9, 9, 9]⟩]
        (fun remaining cur_len => if cur_len ≤ remaining then cur_len else 0)
        [1, 99] 4 true).responded = false ∧
    (ble_gatt_request_read_multi_handler [⟨1, 3, 3, some [9, 9, 9]⟩]
        (fun remaining cur_len => if cur_len ≤ remaining then cur_len else 0)
        [1, 99] 4 true).buffer = BufferFate.freed) :=
  ⟨by decide, by decide, by decide,
    read_multi_missing_handle_all_or_nothing [⟨1, 3, 3, some [9, 9, 9]⟩]
      (fun remaining cur_len => if cur_len ≤ remaining then cur_len else 0)
      [1, 99] [1] [] 99 4 (by decide) (by decide) (by decide)⟩

/-- C4 counterexample: a read-multiple request whose response-buffer
allocation fails returns `InvalidHandle`, which differs from the
`InsufResource` status the claim promises for both multi-attribute
handlers. -/
theorem alloc_failure_status_counterexample :
    (ble_gatt_request_read_multi_handler [] (fun _ _ => 0) [42] 5
        false).status = GattStatus.InvalidHandle ∧
    GattStatus.InvalidHandle ≠ GattStatus.InsufResource := by
  decide

/-- C4 as amended: on response-buffer allocation failure the read-by-type
handler returns `InsufResource`, but the read-multiple handler returns
`InvalidHandle`. -/
theorem alloc_failure_status (tbl : List GattDbEntry)
    (typeMatch : Nat → Bool) (putB putM : Nat → Nat → Nat)
    (s_handle e_handle length_requested : Nat) (handles : List Nat) :
    (ble_gatt_request_read_by_type_handler tbl typeMatch putB s_handle
        e_handle length_requested false).status = GattStatus.InsufResource ∧
    (ble_gatt_request_read_multi_handler tbl putM handles length_requested
        false).status = GattStatus.InvalidHandle := by
  exact ⟨rfl, rfl⟩

/-- Auxiliary fact: when no handle in the inclusive range matches the type,
the vendor search returns 0. -/
theorem find_handle_by_type_none (s e : Nat) (tm : Nat → Bool)
    (h : ∀ x, s ≤ x → x ≤ e → tm x = false) :
    wiced_bt_gatt_find_handle_by_type s e tm = 0 := by
  unfold wiced_bt_gatt_find_handle_by_type
  have hnone : (List.range' s (e + 1 - s)).find? tm = none := by
    apply List.find?_eq_none.mpr
    intro x hx
    have hb := List.mem_range'_1.mp hx
    simp [h x hb.1 (by omega)]
  rw [hnone]

/-- Auxiliary fact: the read-by-type loop never leaks its buffer — every
exit either freed it or transferred its ownership to the transport. -/
theorem readByTypeLoop_no_leak (tbl : List GattDbEntry)
    (typeMatch : Nat → Bool) (put : Nat → Nat → Nat)
    (e_handle length_requested : Nat) :
    ∀ attr_handle used acc,
      (readByTypeLoop tbl typeMatch put e_handle length_requested attr_handle
          used acc).buffer = BufferFate.freed ∨
      (readByTypeLoop tbl typeMatch put e_handle length_requested attr_handle
          used acc).buffer = BufferFate.transferred := by
  intro attr_handle used acc
  induction attr_handle, used, acc using readByTypeLoop.induct tbl typeMatch
      put e_handle length_requested with
  | case1 attr_handle acc found hfound =>
    have hf : wiced_bt_gatt_find_handle_by_type attr_handle e_handle
        typeMatch = 0 := hfound
    rw [readByTypeLoop]
    simp [hf]
  | case2 attr_handle used acc found hfound hused =>
    have hf : wiced_bt_gatt_find_handle_by_type attr_handle e_handle
        typeMatch = 0 := hfound
    rw [readByTypeLoop]
    simp [hf, hused]
  | case3 attr_handle used acc found hfne hlook =>
    have hf : ¬ wiced_bt_gatt_find_handle_by_type attr_handle e_handle
        typeMatch = 0 := hfne
    have hl : ble_gatt_db_find_by_handle tbl
        (wiced_bt_gatt_find_handle_by_type attr_handle e_handle typeMatch) =
          none := hlook
    rw [readByTypeLoop]
    simp [hf, hl]
  | case4 attr_handle acc found hfne attr_entry hlook filled hfill =>
    have hf : ¬ wiced_bt_gatt_find_handle_by_type attr_handle e_handle
        typeMatch = 0 := hfne
    have hl : ble_gatt_db_find_by_handle tbl
        (wiced_bt_gatt_find_handle_by_type attr_handle e_handle typeMatch) =
          some attr_entry := hlook
    have hp : put (length_requested - 0) attr_entry.cur_len = 0 := hfill
    rw [Nat.sub_zero] at hp
    rw [readByTypeLoop]
    simp [hf, hl, hp]
  | case5 attr_handle used acc found hfne attr_entry hlook filled hfill
      hused =>
    have hf : ¬ wiced_bt_gatt_find_handle_by_type attr_handle e_handle
        typeMatch = 0 := hfne
    have hl : ble_gatt_db_find_by_handle tbl
        (wiced_bt_gatt_find_handle_by_type attr_handle e_handle typeMatch) =
          some attr_entry := hlook
    have hp : put (length_requested - used) attr_entry.cur_len = 0 := hfill
    rw [readByTypeLoop]
    simp [hf, hl, hp, hused]
  | case6 attr_handle used acc found hfne attr_entry hlook filled hfill ih =>
    have hf : ¬ wiced_bt_gatt_find_handle_by_type attr_handle e_handle
        typeMatch = 0 := hfne
    have hl : ble_gatt_db_find_by_handle tbl
        (wiced_bt_gatt_find_handle_by_type attr_handle e_handle typeMatch) =
          some attr_entry := hlook
    have hp : ¬ put (length_requested - used) attr_entry.cur_len = 0 := hfill
    rw [readByTypeLoop]
    rw [dif_neg hf]
    simp only [hl]
    rw [if_neg hp]
    exact ih

/-- C5: a read-by-type request over a range with no type match returns the
not-found status (`WICED_BT_GATT_INVALID_HANDLE`), frees the response
buffer and sends nothing; and in general, whenever the response buffer was
allocated, every exit path of the handler either frees it or transfers its
ownership to the transport together with the release callback. -/
theorem read_by_type_not_found_and_no_leak (tbl : List GattDbEntry)
    (typeMatch : Nat → Bool) (put : Nat → Nat → Nat)
    (s_handle e_handle length_requested : Nat)
    (hmatch : ∀ x, s_handle ≤ x → x ≤ e_handle → typeMatch x = false) :
    ble_gatt_request_read_by_type_handler tbl typeMatch put s_handle e_handle
        length_requested true =
      { status := GattStatus.InvalidHandle, error_handle := s_handle,
        responded := false, response_handles := [],
        buffer := BufferFate.freed } ∧
    (∀ (tm2 : Nat → Bool) (put2 : Nat → Nat → Nat) (s2 e2 l2 : Nat),
      (ble_gatt_request_read_by_type_handler tbl tm2 put2 s2 e2 l2
          true).buffer = BufferFate.freed ∨
      (ble_gatt_request_read_by_type_handler tbl tm2 put2 s2 e2 l2
          true).buffer = BufferFate.transferred) := by
  constructor
  · simp only [ble_gatt_request_read_by_type_handler]
    rw [if_neg (by simp)]
    rw [readByTypeLoop]
    simp [find_handle_by_type_none s_handle e_handle typeMatch hmatch]
  · intro tm2 put2 s2 e2 l2
    simp only [ble_gatt_request_read_by_type_handler]
    rw [if_neg (by simp)]
    exact readByTypeLoop_no_leak tbl tm2 put2 e2 l2 s2 0 []

/-- Witness for C5 at a concrete input: a range [10, 12] in which nothing
matches the requested type. -/
theorem read_by_type_not_found_and_no_leak_witness :
    (∀ x, 10 ≤ x → x ≤ 12 → (fun _ => false) x = false) ∧
    (ble_gatt_request_read_by_type_handler [⟨1, 3, 3, some [9, 9, 9]⟩]
        (fun _ => false) (fun _ cur_len => cur_len) 10 12 4 true =
      { status := GattStatus.InvalidHandle, error_handle := 10,
        responded := false, response_handles := [],
        buffer := BufferFate.freed } ∧
    (∀ (tm2 : Nat → Bool) (put2 : Nat → Nat → Nat) (s2 e2 l2 : Nat),
      (ble_gatt_request_read_by_type_handler [⟨1, 3, 3, some [9, 9, 9]⟩]
          tm2 put2 s2 e2 l2 true).buffer = BufferFate.freed ∨
      (ble_gatt_request_read_by_type_handler [⟨1, 3, 3, some [9, 9, 9]⟩]
          tm2 put2 s2 e2 l2 true).buffer = BufferFate.transferred)) :=
  ⟨fun x _ _ => rfl,
    read_by_type_not_found_and_no_leak [⟨1, 3, 3, some [9, 9, 9]⟩]
      (fun _ => false) (fun _ cur_len => cur_len) 10 12 4
      (fun x _ _ => rfl)⟩

/-- C6 counterexample: a request with opcode `GATT_REQ_FIND_TYPE_VALUE`
(a valid protocol opcode with no case in the dispatcher switch) makes the
dispatcher return the zero-initialized status — `WICED_BT_GATT_SUCCESS` —
so the callback sends no error response: the unsupported opcode is silently
reported as success instead of `ReqNotSupported`. -/
theorem unsupported_opcode_success_counterexample :
    (ble_gatt_event_handler [] ⟨0, 0⟩
        { typeMatch := fun _ => false, putByType := fun _ _ => 0,
          putMulti := fun _ _ => 0, alloc_ok := true,
          mtu_rsp_status := GattStatus.Success,
          ota := ⟨true, true, true, true, true⟩ }
        { opcode := GattOpcode.ReqFindTypeValue, read_req := ⟨0, 0⟩,
          read_by_type_s := 0, read_by_type_e := 0, read_multi_handles := [],
          write_req := ⟨0, none, 0⟩, len_requested := 0 }).status =
      GattStatus.Success ∧
    (ble_gatt_event_callback_attribute_request [] ⟨0, 0⟩
        { typeMatch := fun _ => false, putByType := fun _ _ => 0,
          putMulti := fun _ _ => 0, alloc_ok := true,
          mtu_rsp_status := GattStatus.Success,
          ota := ⟨true, true, true, true, true⟩ }
        { opcode := GattOpcode.ReqFindTypeValue, read_req := ⟨0, 0⟩,
          read_by_type_s := 0, read_by_type_e := 0, read_multi_handles := [],
          write_req := ⟨0, none, 0⟩, len_requested := 0 }).2 = false ∧
    GattStatus.Success ≠ GattStatus.ReqNotSupported :=
  ⟨rfl, rfl, by decide⟩

/-- C6 as amended: for every attribute request whose opcode has no case in
the dispatcher switch, the dispatcher keeps the zero-initialized status,
which is `WICED_BT_GATT_SUCCESS`, and consequently the callback sends no
protocol error response: the unsupported operation is silently acknowledged
as success (`UnsupportedOperation` is produced only by the OTA write
handler for unexpected handles or commands). -/
theorem unsupported_opcode_silent_success (tbl : List GattDbEntry)
    (st : OtaState) (env : GattEnv) (req : AttributeRequest)
    (hop : req.opcode = GattOpcode.ReqFindTypeValue ∨
      req.opcode = GattOpcode.ReqReadByGrpType) :
    (ble_gatt_event_handler tbl st env req).status = GattStatus.Success ∧
    (ble_gatt_event_callback_attribute_request tbl st env req).2 = false := by
  rcases hop with h | h <;>
    simp [ble_gatt_event_callback_attribute_request, ble_gatt_event_handler,
      h, gattStatusZeroInit]

/-- Witness for the amended C6 at a concrete request. -/
theorem unsupported_opcode_silent_success_witness :
    ((⟨GattOpcode.ReqReadByGrpType, ⟨0, 0⟩, 0, 0, [], ⟨0, none, 0⟩, 0⟩ :
        AttributeRequest).opcode = GattOpcode.ReqFindTypeValue ∨
      (⟨GattOpcode.ReqReadByGrpType, ⟨0, 0⟩, 0, 0, [], ⟨0, none, 0⟩, 0⟩ :
        AttributeRequest).opcode = GattOpcode.ReqReadByGrpType) ∧
    ((ble_gatt_event_handler [] ⟨0, 0⟩
        ⟨fun _ => false, fun _ _ => 0, fun _ _ => 0, false,
          GattStatus.GattError, ⟨false, false, false, false, false⟩⟩
        ⟨GattOpcode.ReqReadByGrpType, ⟨0, 0⟩, 0, 0, [], ⟨0, none, 0⟩,
          0⟩).status = GattStatus.Success ∧
    (ble_gatt_event_callback_attribute_request [] ⟨0, 0⟩
        ⟨fun _ => false, fun _ _ => 0, fun _ _ => 0, false,
          GattStatus.GattError, ⟨false, false, false, false, false⟩⟩
        ⟨GattOpcode.ReqReadByGrpType, ⟨0, 0⟩, 0, 0, [], ⟨0, none, 0⟩,
          0⟩).2 = false) :=
  ⟨Or.inr rfl,
    unsupported_opcode_silent_success [] ⟨0, 0⟩
      ⟨fun _ => false, fun _ _ => 0, fun _ _ => 0, false,
        GattStatus.GattError, ⟨false, false, false, false, false⟩⟩
      ⟨GattOpcode.ReqReadByGrpType, ⟨0, 0⟩, 0, 0, [], ⟨0, none, 0⟩, 0⟩
      (Or.inr rfl)⟩

/-- C7: on a transport disconnect event, the handler clears
`m_connection_id` to 0 and issues exactly one advertising-start request;
when the transport accepts, the state becomes
`disconnected_and_advertising`, the LED indicator update runs, and the
handler returns success; when the transport rejects the request, the fatal
assertion fires. -/
theorem disconnect_event_restarts_advertising (ctx : BleConnCtx)
    (cs : ConnectionStatus) (adv_start_ok : Bool)
    (hdisc : cs.connected = false) :
    ((connection_event_handler ctx (some cs) adv_start_ok).1).m_connection_id
        = 0 ∧
    ((connection_event_handler ctx (some cs)
        adv_start_ok).2).adv_start_requests = 1 ∧
    (adv_start_ok = true →
      ((connection_event_handler ctx (some cs)
          adv_start_ok).1).m_connection_state =
        ConnState.disconnected_and_advertising ∧
      ((connection_event_handler ctx (some cs) adv_start_ok).2).led_updated =
        true ∧
      ((connection_event_handler ctx (some cs) adv_start_ok).2).status =
        GattStatus.Success) ∧
    (adv_start_ok = false →
      ((connection_event_handler ctx (some cs) adv_start_ok).2).fatal_assert =
        true) := by
  cases adv_start_ok <;> simp [connection_event_handler, hdisc]

/-- Witness for C7 at a concrete input: a connected context receives a
disconnect event and the transport accepts the advertising restart. -/
theorem disconnect_event_restarts_advertising_witness :
    (⟨false, 0, []⟩ : ConnectionStatus).connected = false ∧
    (((connection_event_handler ⟨7, [1, 2, 3, 4, 5, 6], ConnState.connected⟩
        (some ⟨false, 0, []⟩) true).1).m_connection_id = 0 ∧
    ((connection_event_handler ⟨7, [1, 2, 3, 4, 5, 6], ConnState.connected⟩
        (some ⟨false, 0, []⟩) true).2).adv_start_requests = 1 ∧
    (true = true →
      ((connection_event_handler ⟨7, [1, 2, 3, 4, 5, 6], ConnState.connected⟩
          (some ⟨false, 0, []⟩) true).1).m_connection_state =
        ConnState.disconnected_and_advertising ∧
      ((connection_event_handler ⟨7, [1, 2, 3, 4, 5, 6], ConnState.connected⟩
          (some ⟨false, 0, []⟩) true).2).led_updated = true ∧
      ((connection_event_handler ⟨7, [1, 2, 3, 4, 5, 6], ConnState.connected⟩
          (some ⟨false, 0, []⟩) true).2).status = GattStatus.Success) ∧
    (true = false →
      ((connection_event_handler ⟨7, [1, 2, 3, 4, 5, 6], ConnState.connected⟩
          (some ⟨false, 0, []⟩) true).2).fatal_assert = true)) :=
  ⟨rfl,
    disconnect_event_restarts_advertising
      ⟨7, [1, 2, 3, 4, 5, 6], ConnState.connected⟩ ⟨false, 0, []⟩ true rfl⟩

/-- C8 counterexample: from battery level 1 (which lies in [0, 100]) one
update step yields 255 — the uint8 subtraction `1 - 2` wraps to 255, which
exceeds the claimed ceiling of 100 and is not `level - step`. -/
theorem battery_underflow_counterexample :
    battery_service_update_percentage 1 BATTERY_LEVEL_CHANGE = 255 ∧
    100 < 255 := by
  decide

/-- C8 as amended: a zero level becomes 100; a level at least the step (2)
becomes `level - 2`, which stays in [0, 100] whenever the level was; but a
level strictly between 0 and the step wraps modulo 256 (1 becomes 255), so
the no-overshoot guarantee holds only for levels that are 0 or at least the
step. -/
theorem battery_update_amended (level : Nat) (hlt : level ≤ 255) :
    (level = 0 →
      battery_service_update_percentage level BATTERY_LEVEL_CHANGE = 100) ∧
    (BATTERY_LEVEL_CHANGE ≤ level →
      battery_service_update_percentage level BATTERY_LEVEL_CHANGE =
        level - BATTERY_LEVEL_CHANGE) ∧
    ((level = 0 ∨ (BATTERY_LEVEL_CHANGE ≤ level ∧ level ≤ 100)) →
      battery_service_update_percentage level BATTERY_LEVEL_CHANGE ≤ 100) ∧
    (0 < level → level < BATTERY_LEVEL_CHANGE →
      battery_service_update_percentage level BATTERY_LEVEL_CHANGE =
        level + 256 - BATTERY_LEVEL_CHANGE) := by
  simp only [battery_service_update_percentage, BATTERY_LEVEL_CHANGE]
  split_ifs with h0 <;> omega

/-- Witness for the amended C8 at level 4: one tick yields 2. -/
theorem battery_update_amended_witness :
    4 ≤ 255 ∧
    ((4 = 0 →
      battery_service_update_percentage 4 BATTERY_LEVEL_CHANGE = 100) ∧
    (BATTERY_LEVEL_CHANGE ≤ 4 →
      battery_service_update_percentage 4 BATTERY_LEVEL_CHANGE =
        4 - BATTERY_LEVEL_CHANGE) ∧
    ((4 = 0 ∨ (BATTERY_LEVEL_CHANGE ≤ 4 ∧ 4 ≤ 100)) →
      battery_service_update_percentage 4 BATTERY_LEVEL_CHANGE ≤ 100) ∧
    (0 < 4 → 4 < BATTERY_LEVEL_CHANGE →
      battery_service_update_percentage 4 BATTERY_LEVEL_CHANGE =
        4 + 256 - BATTERY_LEVEL_CHANGE)) :=
  ⟨by decide, battery_update_amended 4 (by decide)⟩

/-- C9: a prepare-download command written to the OTA control point while
the session tag is invalid makes the handler return an error status
(`WICED_BT_GATT_ERROR`), and the external engine start entry point
`cy_ota_agent_start` is never invoked. -/
theorem ota_prepare_invalid_tag_no_start (st : OtaState) (env : OtaEnv)
    (wr : GattWriteReq)
    (htag : st.m_tag ≠ OTA_APP_TAG_VALID)
    (hhandle : wr.handle =
      HDLC_OTA_FW_UPGRADE_SERVICE_OTA_UPGRADE_CONTROL_POINT_VALUE)
    (hcmd : (wr.p_val.getD []).getD 0 0 =
      CY_OTA_UPGRADE_COMMAND_PREPARE_DOWNLOAD) :
    (ota_agent_write_handler st env wr).1 = GattStatus.GattError ∧
    (ota_agent_write_handler st env wr).2.2.agent_start_called = false := by
  have hcmd2 : (wr.p_val.getD [])[0]?.getD 0 = 1 := by
    simpa [List.getD, CY_OTA_UPGRADE_COMMAND_PREPARE_DOWNLOAD] using hcmd
  simp [ota_agent_write_handler, hhandle, ota_agent_initialize, htag, hcmd2,
    HDLC_OTA_FW_UPGRADE_SERVICE_OTA_UPGRADE_CONTROL_POINT_VALUE,
    HDLD_OTA_FW_UPGRADE_SERVICE_OTA_UPGRADE_CONTROL_POINT_CLIENT_CHAR_CONFIG,
    CY_OTA_UPGRADE_COMMAND_PREPARE_DOWNLOAD]

/-- Witness for C9 at a concrete input: tag 0 (invalid) and a prepare
command byte on the control-point handle. -/
theorem ota_prepare_invalid_tag_no_start_witness :
    (⟨0, 0⟩ : OtaState).m_tag ≠ OTA_APP_TAG_VALID ∧
    (⟨HDLC_OTA_FW_UPGRADE_SERVICE_OTA_UPGRADE_CONTROL_POINT_VALUE,
        some [1], 1⟩ : GattWriteReq).handle =
      HDLC_OTA_FW_UPGRADE_SERVICE_OTA_UPGRADE_CONTROL_POINT_VALUE ∧
    (((⟨HDLC_OTA_FW_UPGRADE_SERVICE_OTA_UPGRADE_CONTROL_POINT_VALUE,
        some [1], 1⟩ : GattWriteReq).p_val.getD []).getD 0 0 =
      CY_OTA_UPGRADE_COMMAND_PREPARE_DOWNLOAD) ∧
    ((ota_agent_write_handler ⟨0, 0⟩ ⟨true, true, true, true, true⟩
        ⟨HDLC_OTA_FW_UPGRADE_SERVICE_OTA_UPGRADE_CONTROL_POINT_VALUE,
          some [1], 1⟩).1 = GattStatus.GattError ∧
    (ota_agent_write_handler ⟨0, 0⟩ ⟨true, true, true, true, true⟩
        ⟨HDLC_OTA_FW_UPGRADE_SERVICE_OTA_UPGRADE_CONTROL_POINT_VALUE,
          some [1], 1⟩).2.2.agent_start_called = false) :=
  ⟨by decide, rfl, by decide,
    ota_prepare_invalid_tag_no_start ⟨0, 0⟩ ⟨true, true, true, true, true⟩
      ⟨HDLC_OTA_FW_UPGRADE_SERVICE_OTA_UPGRADE_CONTROL_POINT_VALUE,
        some [1], 1⟩ (by decide) rfl (by decide)⟩

end BatteryServer
